import Mathlib

/-!
# CwaWeather-backend: verification of the forecast-normalization engine

Shallow embedding of the three revisions of `getYilanWeekly` found in the
repository:

* revision A: `server.js` first copy (最終穩定版, dataset `F-D0047-003`,
  fetches all towns and filters by name on the backend);
* revision B: `server.js` second copy (最終修正版, dataset `F-D0047-003`,
  upstream filters by name, the handler takes `location[0]`);
* revision C: the unnamed source file (縣市級穩定版, dataset `F-C0032-003`,
  fixed county name 宜蘭縣).

JavaScript semantics relevant to the claims is embedded explicitly:
`undefined`/`null` become `Option.none`; the `||` operator treats the empty
string as falsy (`jsOr` / `jsOrNull`); property access on `undefined`
throws a `TypeError`, modelled with `Except Unit` where the source performs
such an access without a guard (revision C's `getValue`); `?.` and guarded
accesses stay in `Option`.
-/

namespace CwaWeather

/-- A `parameter` descriptor as it appears in upstream payloads:
`{ parameterName, parameterValue }`, either field possibly absent. -/
structure ParamDescriptor where
  parameterName : Option String
  parameterValue : Option String
  deriving DecidableEq, Repr

/-- One item of an `elementValue` array: `{ value, measures, description }`,
each field possibly absent. -/
structure ElementValueItem where
  value : Option String
  measures : Option String
  description : Option String
  deriving DecidableEq, Repr

/-- The `parameter` field of a time entry is duck-typed upstream: either a
single descriptor object (as revision B reads it) or an array of descriptors
(as revision C indexes it). -/
inductive ParamVal where
  | descriptor (d : ParamDescriptor)
  | listOf (l : List ParamDescriptor)
  deriving DecidableEq, Repr

/-- One entry of a `weatherElement[..].time` array. -/
structure TimeEntry where
  startTime : Option String
  endTime : Option String
  parameter : Option ParamVal
  elementValue : Option (List ElementValueItem)
  deriving DecidableEq, Repr

/-- One `weatherElement` entry: `{ elementName, time }` (`time` may be
absent, the source guards with `t ? t.length : 0` / `|| []`). -/
structure WeatherElement where
  elementName : String
  time : Option (List TimeEntry)
  deriving DecidableEq, Repr

/-- A place-level record: `{ locationName, weatherElement }`. -/
structure LocationRecord where
  locationName : Option String
  weatherElement : List WeatherElement
  deriving DecidableEq, Repr

/-- The wrapper in `records.locations[0]`. -/
structure LocationsWrapper where
  location : Option (List LocationRecord)
  deriving DecidableEq, Repr

/-- `response.data.records`, with both container shapes that occur in the
source: `records.location[]` (revision C) and `records.locations[0].location[]`
(revisions A and B). -/
structure Records where
  location : Option (List LocationRecord)
  locations : Option (List LocationsWrapper)
  deriving DecidableEq, Repr

/-- The raw upstream payload `response.data`. -/
structure Payload where
  records : Option Records
  deriving DecidableEq, Repr

/-- The normalized forecast period pushed by every revision:
`{ startTime, endTime, wx, pop, minT, maxT, ci, ws }`. `none` models a
`null`/`undefined` field, `some ""` the empty string that revision B emits. -/
structure ForecastPeriod where
  startTime : Option String
  endTime : Option String
  wx : Option String
  pop : Option String
  minT : Option String
  maxT : Option String
  ci : Option String
  ws : Option String
  deriving DecidableEq, Repr

/-- JavaScript truthiness of a string-or-absent value: `undefined`, `null`
and `""` are falsy. -/
def truthy : Option String → Bool
  | none => false
  | some s => s != ""

/-- JavaScript `a || b` on string-or-absent values. -/
def jsOr (a b : Option String) : Option String :=
  if truthy a then a else b

/-- JavaScript `a || b || null` on string-or-absent values. -/
def jsOrNull (a b : Option String) : Option String :=
  if truthy a then a else if truthy b then b else none

/-- `l[n]` on a JavaScript array: the element, or `undefined` past the end. -/
def nth {α : Type} : List α → Nat → Option α
  | [], _ => none
  | a :: _, 0 => some a
  | _ :: rest, n + 1 => nth rest n

/-- One assignment `elements[k] = v` on a JavaScript object: overwrites the
value if the key is present (keeping its position), otherwise appends. -/
def insertEl (m : List (String × Option (List TimeEntry))) (k : String)
    (v : Option (List TimeEntry)) : List (String × Option (List TimeEntry)) :=
  match m with
  | [] => [(k, v)]
  | (k', v') :: rest =>
      if k' = k then (k', v) :: rest else (k', v') :: insertEl rest k v

/-- `locationData.weatherElement.forEach((el) => { elements[el.elementName] = el.time; })`. -/
def buildElements (wes : List WeatherElement) :
    List (String × Option (List TimeEntry)) :=
  wes.foldl (fun m we => insertEl m we.elementName we.time) []

/-- Key lookup in the built object. -/
def lookupEls : List (String × Option (List TimeEntry)) → String →
    Option (List TimeEntry)
  | [], _ => none
  | (k, v) :: rest, name => if k = name then v else lookupEls rest name

/-- `elements[elName]`: `none` when the key is absent or the stored `el.time`
was itself absent (both are `undefined`, and every use site treats them
alike). -/
def elementsGet (wes : List WeatherElement) (name : String) :
    Option (List TimeEntry) :=
  lookupEls (buildElements wes) name

/-- `Object.values(elements)`. -/
def elementsValues (wes : List WeatherElement) :
    List (Option (List TimeEntry)) :=
  (buildElements wes).map (fun kv => kv.2)

/-- `elements[elName]` followed by `[i]`: the time entry at index `i` of the
named series, if any. -/
def seriesAt (wes : List WeatherElement) (elName : String) (i : Nat) :
    Option TimeEntry :=
  (elementsGet wes elName).bind (fun arr => nth arr i)

/-- Revisions A and B:
`Math.max(...(Object.values(elements).map((t) => (t ? t.length : 0))))`.
An empty object gives `-Infinity` in the source, and the `for` loop then
runs zero times, which coincides with the value `0` here. -/
def timeLenAB (wes : List WeatherElement) : Nat :=
  (elementsValues wes).foldl (fun acc t => max acc (t.getD []).length) 0

/-- Revision C: `elements['Wx'] ? elements['Wx'].length : 0`. -/
def timeLenC (wes : List WeatherElement) : Nat :=
  match elementsGet wes "Wx" with
  | some arr => arr.length
  | none => 0

/-- Revision A `getValue` applied to an entry:
`elementValue?.value || elementValue?.measures || null` after the guard
`if (!timeArray || !timeArray[i] || !timeArray[i].elementValue) return null`,
where `elementValue` stands for `timeArray[i].elementValue[paramIndex]`. -/
def extractValA (e? : Option TimeEntry) (k : Nat) : Option String :=
  match e? with
  | none => none
  | some e =>
      match e.elementValue with
      | none => none
      | some evs =>
          jsOrNull ((nth evs k).bind (fun ev => ev.value))
            ((nth evs k).bind (fun ev => ev.measures))

/-- Revision A `getDescription` applied to an entry:
`elementValue?.description || null` under the same guard. -/
def extractDescA (e? : Option TimeEntry) (k : Nat) : Option String :=
  match e? with
  | none => none
  | some e =>
      match e.elementValue with
      | none => none
      | some evs =>
          jsOrNull ((nth evs k).bind (fun ev => ev.description)) none

/-- Revision A `getValue(elName, paramIndex)` at loop index `i`. -/
def getValueA (wes : List WeatherElement) (elName : String) (k i : Nat) :
    Option String :=
  extractValA (seriesAt wes elName i) k

/-- Revision A `getDescription(elName, paramIndex)` at loop index `i`. -/
def getDescriptionA (wes : List WeatherElement) (elName : String)
    (k i : Nat) : Option String :=
  extractDescA (seriesAt wes elName i) k

/-- Revision A / revision C time axis:
`elements["Wx"] ? elements["Wx"][i] : null`. -/
def timeMetaA (wes : List WeatherElement) (i : Nat) : Option TimeEntry :=
  seriesAt wes "Wx" i

/-- The forecast object pushed by revision A at loop index `i`
(`startTime: timeMeta?.startTime ?? null`, etc.). -/
def forecastA (wes : List WeatherElement) (i : Nat) : ForecastPeriod :=
  { startTime := (timeMetaA wes i).bind (fun e => e.startTime)
    endTime := (timeMetaA wes i).bind (fun e => e.endTime)
    wx := getDescriptionA wes "Wx" 0 i
    pop := getValueA wes "PoP12h" 0 i
    minT := getValueA wes "MinT" 0 i
    maxT := getValueA wes "MaxT" 0 i
    ci := getDescriptionA wes "CI" 0 i
    ws := getValueA wes "WS" 0 i }

/-- Revision A normalization loop: `for (let i = 0; i < timeLen; i++)`. -/
def normalizeA (wes : List WeatherElement) : List ForecastPeriod :=
  (List.range (timeLenAB wes)).map (forecastA wes)

/-- `req.params.town || "宜蘭市"` (the `||` default also fires on the empty
string). -/
def defaultTown (town : Option String) : String :=
  match town with
  | none => "宜蘭市"
  | some s => if s = "" then "宜蘭市" else s

/-- `allLocations.find(loc => loc.locationName === locationName)`. -/
def findLoc : List LocationRecord → String → Option LocationRecord
  | [], _ => none
  | l :: rest, name =>
      if l.locationName = some name then some l else findLoc rest name

/-- `records?.locations?.[0]?.location` (revisions A and B). -/
def allLocationsAB (p : Payload) : Option (List LocationRecord) :=
  ((p.records.bind (fun r => r.locations)).bind
    (fun ls => nth ls 0)).bind (fun w => w.location)

/-- `records?.location?.[0]` (revision C). -/
def locFirstC (p : Payload) : Option LocationRecord :=
  (p.records.bind (fun r => r.location)).bind (fun ls => nth ls 0)

/-- Outcomes of revision A's handler: the 404 "資料集錯誤" branch, the 404
"查無資料" branch (carrying `location.map(l => l.locationName)`), and the
success response. -/
inductive OutcomeA where
  | datasetError
  | notFound (available : List (Option String))
  | success (city : Option String) (forecasts : List ForecastPeriod)
  deriving DecidableEq, Repr

/-- Revision A handler body after the upstream call, as a function of the
requested town and the raw payload. -/
def getYilanWeeklyA (town : Option String) (p : Payload) : OutcomeA :=
  let locationName := defaultTown town
  match allLocationsAB p with
  | none => OutcomeA.datasetError
  | some locs =>
      if locs.isEmpty then OutcomeA.datasetError
      else
        match findLoc locs locationName with
        | none => OutcomeA.notFound (locs.map (fun l => l.locationName))
        | some locationData =>
            OutcomeA.success locationData.locationName
              (normalizeA locationData.weatherElement)

/-- JavaScript `.parameterName` on a `parameter` value: defined on the
descriptor object, `undefined` on an array. -/
def paramNameOf : ParamVal → Option String
  | ParamVal.descriptor d => d.parameterName
  | ParamVal.listOf _ => none

/-- JavaScript `.parameterValue` on a `parameter` value. -/
def paramValueOf : ParamVal → Option String
  | ParamVal.descriptor d => d.parameterValue
  | ParamVal.listOf _ => none

/-- JavaScript `parameter[idx]`: an element of the array form, `undefined`
on the object form (no numeric keys in the modelled descriptors). -/
def paramAt : ParamVal → Nat → Option ParamDescriptor
  | ParamVal.descriptor _, _ => none
  | ParamVal.listOf l, idx => nth l idx

/-- Revision B `getParam(elName)` at loop index `i`:
`const arr = elements[elName] || []; if (!arr[i]) return null;
return arr[i].parameter || null;`. -/
def getParamB (wes : List WeatherElement) (elName : String) (i : Nat) :
    Option ParamVal :=
  match nth ((elementsGet wes elName).getD []) i with
  | none => none
  | some e => e.parameter

/-- Revision B field assembly: `x ? x.parameterName || x.parameterValue : ""`. -/
def fieldB (pv? : Option ParamVal) : Option String :=
  match pv? with
  | none => some ""
  | some pv => jsOr (paramNameOf pv) (paramValueOf pv)

/-- Revision B time axis:
`(elements["Wx"] && elements["Wx"][i]) || { startTime: null, endTime: null }`,
read as the pair of its `startTime`/`endTime` fields. -/
def timeMetaB (wes : List WeatherElement) (i : Nat) :
    Option String × Option String :=
  match seriesAt wes "Wx" i with
  | none => (none, none)
  | some e => (e.startTime, e.endTime)

/-- The forecast object pushed by revision B at loop index `i`. -/
def forecastB (wes : List WeatherElement) (i : Nat) : ForecastPeriod :=
  { startTime := (timeMetaB wes i).1
    endTime := (timeMetaB wes i).2
    wx := fieldB (getParamB wes "Wx" i)
    pop := fieldB (getParamB wes "PoP" i)
    minT := fieldB (getParamB wes "MinT" i)
    maxT := fieldB (getParamB wes "T" i)
    ci := fieldB (getParamB wes "CI" i)
    ws := fieldB (getParamB wes "WS" i) }

/-- Revision B normalization loop. -/
def normalizeB (wes : List WeatherElement) : List ForecastPeriod :=
  (List.range (timeLenAB wes)).map (forecastB wes)

/-- Outcomes of revision B's handler: one 404 "查無資料" branch and the
success response. -/
inductive OutcomeB where
  | notFound
  | success (city : Option String) (forecasts : List ForecastPeriod)
  deriving DecidableEq, Repr

/-- Revision B handler body after the upstream call (`town` only feeds the
upstream query string and error message, never the normalization). -/
def getYilanWeeklyB (town : Option String) (p : Payload) : OutcomeB :=
  match allLocationsAB p with
  | none => OutcomeB.notFound
  | some locs =>
      if locs.isEmpty then OutcomeB.notFound
      else
        match nth locs 0 with
        | none => OutcomeB.notFound
        | some locationData =>
            OutcomeB.success locationData.locationName
              (normalizeB locationData.weatherElement)

/-- Revision C `getValue` applied to an entry:
`return timeArray[i].parameter[idx]?.parameterName || null;` after the guard
`if (!timeArray || !timeArray[i]) return null`. When the entry carries no
`parameter` field the source indexes `undefined`, which throws a
`TypeError`; that is the `Except.error` case. -/
def extractValC (e? : Option TimeEntry) (idx : Nat) :
    Except Unit (Option String) :=
  match e? with
  | none => Except.ok none
  | some e =>
      match e.parameter with
      | none => Except.error ()
      | some pv =>
          Except.ok
            (jsOrNull ((paramAt pv idx).bind (fun d => d.parameterName)) none)

/-- Revision C `getValue(elName, idx)` at loop index `i`. -/
def getValueC (wes : List WeatherElement) (elName : String) (idx i : Nat) :
    Except Unit (Option String) :=
  extractValC (seriesAt wes elName i) idx

/-- The forecast object pushed by revision C at loop index `i`; any thrown
`TypeError` propagates. -/
def forecastC (wes : List WeatherElement) (i : Nat) :
    Except Unit ForecastPeriod := do
  let wx ← getValueC wes "Wx" 0 i
  let pop ← getValueC wes "PoP" 0 i
  let minT ← getValueC wes "MinT" 0 i
  let maxT ← getValueC wes "MaxT" 0 i
  let ci ← getValueC wes "CI" 0 i
  let ws ← getValueC wes "WS" 0 i
  pure
    { startTime := (timeMetaA wes i).bind (fun e => e.startTime)
      endTime := (timeMetaA wes i).bind (fun e => e.endTime)
      wx := wx, pop := pop, minT := minT, maxT := maxT, ci := ci, ws := ws }

/-- Left-to-right effectful map over `Except`, mirroring the `for` loop of
revision C: the first thrown error aborts the remaining iterations. -/
def mapExcept {α β : Type} (f : α → Except Unit β) :
    List α → Except Unit (List β)
  | [] => Except.ok []
  | a :: rest => do
      let b ← f a
      let l ← mapExcept f rest
      pure (b :: l)

/-- Revision C normalization loop over `timeLenC` iterations. -/
def normalizeC (wes : List WeatherElement) :
    Except Unit (List ForecastPeriod) :=
  mapExcept (forecastC wes) (List.range (timeLenC wes))

/-- `const countyName = "宜蘭縣";` in revision C. -/
def countyName : String := "宜蘭縣"

/-- The `locationName` query parameter revision C sends upstream: the fixed
county name, whatever town the route received. -/
def upstreamLocationNameC (town : Option String) : String := countyName

/-- Outcomes of revision C's handler: the 404 "資料集錯誤" branch, the 500
branch produced when normalization throws and the `catch` block answers, and
the success response (whose `city` field is `countyName`). -/
inductive OutcomeC where
  | datasetError
  | serverError
  | success (city : String) (forecasts : List ForecastPeriod)
  deriving DecidableEq, Repr

/-- Revision C handler body after the upstream call (`req.params.town` is
never read). -/
def getYilanWeeklyC (town : Option String) (p : Payload) : OutcomeC :=
  match locFirstC p with
  | none => OutcomeC.datasetError
  | some locationData =>
      match normalizeC locationData.weatherElement with
      | Except.error _ => OutcomeC.serverError
      | Except.ok forecasts => OutcomeC.success countyName forecasts

/-- Run the revision A pipeline twice on the same payload (two successive
requests with an identical upstream response). -/
def runTwiceA (town : Option String) (p : Payload) : OutcomeA × OutcomeA :=
  (getYilanWeeklyA town p, getYilanWeeklyA town p)

/-- First truthy value of an ordered probe list (the spec's "ordered fallback
chain" of extraction probes). -/
def firstTruthy : List (Option String) → Option String
  | [] => none
  | p :: rest => if truthy p then p else firstTruthy rest

/-- Spec-side probe: the human-readable name field of a `parameter`-style
descriptor. -/
def specParamName (e : TimeEntry) : Option String :=
  e.parameter.bind (fun pv =>
    match pv with
    | ParamVal.descriptor d => d.parameterName
    | ParamVal.listOf l => (nth l 0).bind (fun d => d.parameterName))

/-- Spec-side probe: the raw coded value field of a `parameter`-style
descriptor. -/
def specParamValue (e : TimeEntry) : Option String :=
  e.parameter.bind (fun pv =>
    match pv with
    | ParamVal.descriptor d => d.parameterValue
    | ParamVal.listOf l => (nth l 0).bind (fun d => d.parameterValue))

/-- Spec-side probe: a field of the first element of an `elementValue`-style
list. -/
def specElemField (e : TimeEntry) (f : ElementValueItem → Option String) :
    Option String :=
  (e.elementValue.bind (fun l => nth l 0)).bind f

/-- The tolerant scalar extraction exactly as the specification words it
(claim C4): probe the parameter-style descriptor (name then raw value), then
the elementValue-style list (first element, numeric/measured fields then the
textual description); the first non-empty probe wins, else `null`. Written
from the spec for comparison against the source's extractors. -/
def specProbeChain (e : TimeEntry) : Option String :=
  firstTruthy
    [specParamName e, specParamValue e,
      specElemField e (fun ev => ev.value),
      specElemField e (fun ev => ev.measures),
      specElemField e (fun ev => ev.description)]

/-- What revision A's `getValue` actually probes on a present entry, written
in the spec's probe-chain vocabulary: `elementValue[k].value`, then
`elementValue[k].measures`, nothing else. -/
def amendedValueA (e : TimeEntry) (k : Nat) : Option String :=
  firstTruthy
    [(e.elementValue.bind (fun l => nth l k)).bind (fun ev => ev.value),
      (e.elementValue.bind (fun l => nth l k)).bind (fun ev => ev.measures)]

/-- What revision A's `getDescription` actually probes:
`elementValue[k].description` only. -/
def amendedDescA (e : TimeEntry) (k : Nat) : Option String :=
  firstTruthy
    [(e.elementValue.bind (fun l => nth l k)).bind (fun ev => ev.description)]

/-- What revision C's `getValue` actually probes on a present entry:
`parameter[idx].parameterName` only, throwing when `parameter` is absent. -/
def amendedValueC (e : TimeEntry) (idx : Nat) : Except Unit (Option String) :=
  match e.parameter with
  | none => Except.error ()
  | some pv =>
      Except.ok (firstTruthy [(paramAt pv idx).bind (fun d => d.parameterName)])

/-- An entry carrying one `parameter` descriptor and one `elementValue` item,
all value fields set to `v`. -/
def sampleEntry (st et v : String) : TimeEntry :=
  { startTime := some st
    endTime := some et
    parameter := some (ParamVal.listOf
      [{ parameterName := some v, parameterValue := none }])
    elementValue := some
      [{ value := some v, measures := none, description := some v }] }

/-- C1 fixture for revision C: `Wx` has one entry while `WS` has two. -/
def c1wes : List WeatherElement :=
  [{ elementName := "Wx", time := some [sampleEntry "T0" "T1" "晴"] }
   , { elementName := "WS",
       time := some [sampleEntry "T0" "T1" "3", sampleEntry "T1" "T2" "4"] }]

/-- Seven `Wx` samples for the C1 fixture. -/
def wxSeries7 : List TimeEntry :=
  [sampleEntry "D0" "D1" "晴", sampleEntry "D1" "D2" "晴",
    sampleEntry "D2" "D3" "晴", sampleEntry "D3" "D4" "晴",
    sampleEntry "D4" "D5" "晴", sampleEntry "D5" "D6" "晴",
    sampleEntry "D6" "D7" "晴"]

/-- Three `WS` samples for the C1 fixture. -/
def wsSeries3 : List TimeEntry :=
  [sampleEntry "D0" "D1" "3", sampleEntry "D1" "D2" "4",
    sampleEntry "D2" "D3" "5"]

/-- C1 fixture for revision A: `Wx` has seven entries while `WS` has
three. -/
def wes7x3 : List WeatherElement :=
  [{ elementName := "Wx", time := some wxSeries7 },
    { elementName := "WS", time := some wsSeries3 }]

/-- C2 fixture: a structurally malformed time entry that has times but no
`parameter` and no `elementValue` sub-object. -/
def c2entry : TimeEntry :=
  { startTime := some "T0", endTime := some "T1",
    parameter := none, elementValue := none }

/-- C2 fixture: a county record whose `Wx` entry lacks the `parameter`
sub-object. -/
def c2loc : LocationRecord :=
  { locationName := some "宜蘭縣",
    weatherElement := [{ elementName := "Wx", time := some [c2entry] }] }

/-- C2 fixture: a county-level payload whose matched place has a `Wx` entry
lacking the `parameter` sub-object. -/
def c2payload : Payload :=
  { records := some { location := some [c2loc], locations := none } }

/-- C3 fixture: a healthy place record for 宜蘭縣. -/
def c3loc : LocationRecord :=
  { locationName := some "宜蘭縣",
    weatherElement :=
      [{ elementName := "Wx", time := some [sampleEntry "T0" "T1" "晴"] }] }

/-- C3 fixture: a payload in the flat `records.location[]` shape (the shape
the claim says is tried first), with a place named 宜蘭縣. -/
def c3payload : Payload :=
  { records := some { location := some [c3loc], locations := none } }

/-- C4 fixture: an entry whose only populated probe location is the textual
`elementValue[0].description`. -/
def c4entry : TimeEntry :=
  { startTime := none, endTime := none, parameter := none,
    elementValue := some
      [{ value := none, measures := none, description := some "晴" }] }

/-- C4 fixture: an entry whose only populated probe location is the raw coded
`parameter[0].parameterValue`. -/
def c4entryVal : TimeEntry :=
  { startTime := none, endTime := none,
    parameter := some (ParamVal.listOf
      [{ parameterName := none, parameterValue := some "5" }]),
    elementValue := none }

/-- C5 fixture: the matched place 宜蘭市 with an empty `weatherElement`
list. -/
def c5loc : LocationRecord :=
  { locationName := some "宜蘭市", weatherElement := [] }

/-- C5 fixture: a matched place (宜蘭市) whose `weatherElement` list is
empty, in the `records.locations[0].location[]` shape. -/
def c5payload : Payload :=
  { records := some
      { location := none,
        locations := some [{ location := some [c5loc] }] } }

/-- C5 fixture for revision C: the matched county record with an empty
`weatherElement` list. -/
def c5locC : LocationRecord :=
  { locationName := some "宜蘭縣", weatherElement := [] }

/-- C5 fixture for revision C: a matched county record with an empty
`weatherElement` list in the flat shape. -/
def c5payloadC : Payload :=
  { records := some { location := some [c5locC], locations := none } }

/-- C6 fixture: series present under the aliases `PoP` and `MaxT` (and a
`Wx` axis), but not under `PoP12h` or `T`. -/
def c6wes : List WeatherElement :=
  [{ elementName := "Wx", time := some [sampleEntry "T0" "T1" "晴"] }
   , { elementName := "PoP", time := some [sampleEntry "T0" "T1" "30"] }
   , { elementName := "MaxT", time := some [sampleEntry "T0" "T1" "30"] }]

/-- C7 fixture: the one available place record, 宜蘭市. -/
def c7loc : LocationRecord :=
  { locationName := some "宜蘭市",
    weatherElement :=
      [{ elementName := "Wx", time := some [sampleEntry "T0" "T1" "晴"] }] }

/-- C7 fixture: one available place, 宜蘭市, with some forecast data. -/
def c7payload : Payload :=
  { records := some
      { location := none,
        locations := some [{ location := some [c7loc] }] } }

/-- C8 fixture: a record with a `WS` series (which carries times) and no
`Wx` series. -/
def c8entry : TimeEntry := sampleEntry "T0" "T1" "3"

/-- C8 fixture record. -/
def c8wes : List WeatherElement :=
  [{ elementName := "WS", time := some [c8entry] }]

/-- C10 fixture: a healthy county record. -/
def c10loc : LocationRecord :=
  { locationName := some "宜蘭縣",
    weatherElement :=
      [{ elementName := "Wx", time := some [sampleEntry "T0" "T1" "晴"] }] }

/-- C10 fixture: a county-level payload that normalizes successfully. -/
def c10payload : Payload :=
  { records := some { location := some [c10loc], locations := none } }

/-- The period pushed by revision C for the healthy C10 fixture. -/
def c10period : ForecastPeriod :=
  { startTime := some "T0", endTime := some "T1", wx := some "晴",
    pop := none, minT := none, maxT := none, ci := none, ws := none }

/-- `l[n]` is `undefined` at and past the array's length. -/
theorem nth_eq_none_of_le {α : Type} :
    ∀ (l : List α) (n : Nat), l.length ≤ n → nth l n = none := by
  intro l
  induction l with
  | nil => intro n _; rfl
  | cons a rest ih =>
      intro n h
      cases n with
      | zero => exact absurd h (by simp)
      | succ m => exact ih m (Nat.le_of_succ_le_succ h)

/-- A loop that completes without throwing produced one output per
iteration. -/
theorem mapExcept_ok_length {α β : Type} (f : α → Except Unit β) :
    ∀ (l : List α) (res : List β), mapExcept f l = Except.ok res →
      res.length = l.length := by
  intro l
  induction l with
  | nil =>
      intro res h
      simp only [mapExcept] at h
      cases h
      rfl
  | cons a rest ih =>
      intro res h
      simp only [mapExcept] at h
      cases hf : f a with
      | error e => rw [hf] at h; cases h
      | ok b =>
          rw [hf] at h
          cases hr : mapExcept f rest with
          | error e => rw [hr] at h; cases h
          | ok tl =>
              rw [hr] at h
              cases h
              simp [ih tl hr]

/-- A name for which no location matches is not found by the backend
filter. -/
theorem findLoc_eq_none :
    ∀ (locs : List LocationRecord) (name : String),
      (∀ l ∈ locs, l.locationName ≠ some name) → findLoc locs name = none := by
  intro locs name
  induction locs with
  | nil => intro _; rfl
  | cons a rest ih =>
      intro h
      simp only [findLoc]
      rw [if_neg (h a (by simp))]
      exact ih (fun l hl => h l (by simp [hl]))

/-- Revision A normalizes an empty attribute list to an empty forecast
list. -/
theorem normalizeA_nil : normalizeA [] = [] := rfl

/-- Revision C normalizes an empty attribute list to an empty forecast
list without throwing. -/
theorem normalizeC_nil : normalizeC [] = Except.ok [] := rfl

/-- C1 (corrected), counterexample: in the county-level revision the number
of emitted periods is the `Wx` series' length, not the maximum across all
attribute series. On a record where `Wx` has one entry and `WS` has two,
normalization succeeds with exactly one period although the maximum series
length (`timeLenAB`, the formula the claim describes) is two. -/
theorem C1_counterexample :
    (normalizeC c1wes).map (fun l => l.length) = Except.ok 1 ∧
      timeLenAB c1wes = 2 :=
  ⟨rfl, rfl⟩

/-- C1 (amended): for the F-D0047-003 stable revision the claim holds — the
number of emitted periods equals the maximum length across all attribute
series present, and every attribute's value at an index at or beyond its own
series' length is null. The county-level revision instead emits one period
per `Wx` entry. -/
theorem C1_amended (wes : List WeatherElement) :
    (normalizeA wes).length = timeLenAB wes ∧
      (∀ elName k i, ((elementsGet wes elName).getD []).length ≤ i →
        getValueA wes elName k i = none) ∧
      (∀ l, normalizeC wes = Except.ok l → l.length = timeLenC wes) := by
  refine ⟨?_, ?_, ?_⟩
  · simp [normalizeA]
  · intro elName k i h
    unfold getValueA seriesAt
    cases hE : elementsGet wes elName with
    | none => rfl
    | some arr =>
        rw [hE] at h
        simp only [Option.getD_some] at h
        show extractValA (nth arr i) k = none
        rw [nth_eq_none_of_le arr i h]
        rfl
  · intro l h
    have hlen := mapExcept_ok_length (forecastC wes)
      (List.range (timeLenC wes)) l h
    simpa using hlen

/-- C1 witness: on the record where `Wx` has 7 entries and `WS` has 3, the
stable revision emits `timeLenAB wes7x3 = 7` periods and the wind-speed value
is null at indices 3 and 6. -/
theorem C1_amended_witness :
    (normalizeA wes7x3).length = timeLenAB wes7x3 ∧
      getValueA wes7x3 "WS" 0 3 = none ∧
      getValueA wes7x3 "WS" 0 6 = none ∧
      timeLenAB wes7x3 = 7 :=
  ⟨(C1_amended wes7x3).1,
    (C1_amended wes7x3).2.1 "WS" 0 3 (by decide),
    (C1_amended wes7x3).2.1 "WS" 0 6 (by decide),
    rfl⟩

/-- C2 (code_bug): the spec's failure semantics ("the normalizer never
raises; every field degrades to null") is the evident intent — revision A
degrades this very entry to null, and the county-level `getValue` itself
guards `!timeArray[i]` and uses `?.` — but the county-level revision
dereferences `timeArray[i].parameter[idx]` without a guard, so a `Wx` entry
lacking the `parameter` sub-object throws a TypeError: normalization aborts
and the request falls into the catch-all 500 branch. -/
theorem C2_code_bug_eval :
    getYilanWeeklyC (some "礁溪鄉") c2payload = OutcomeC.serverError ∧
      extractValC (some c2entry) 0 = Except.error () ∧
      extractValA (some c2entry) 0 = none :=
  ⟨rfl, rfl, rfl⟩

/-- C3 (corrected), counterexample: no revision attempts the container
shapes in priority order. On a payload in the first claimed shape
(`records.location[]`, with the place present), the two F-D0047-003
revisions answer with their 404 outcome instead of producing a place record,
even though that shape is present in the payload. -/
theorem C3_counterexample :
    getYilanWeeklyA (some "宜蘭縣") c3payload = OutcomeA.datasetError ∧
      getYilanWeeklyB (some "宜蘭縣") c3payload = OutcomeB.notFound ∧
      (c3payload.records.bind (fun r => r.location)).isSome = true :=
  ⟨rfl, rfl, rfl⟩

/-- C3 (amended): each revision probes exactly one container shape. When
`records.locations[0].location` is absent, revisions A and B report their
404 outcome no matter what other shapes the payload holds; when
`records.location[0]` is absent, revision C does likewise. -/
theorem C3_amended (town : Option String) (p : Payload) :
    (allLocationsAB p = none →
        getYilanWeeklyA town p = OutcomeA.datasetError ∧
          getYilanWeeklyB town p = OutcomeB.notFound) ∧
      (locFirstC p = none → getYilanWeeklyC town p = OutcomeC.datasetError) := by
  constructor
  · intro h
    constructor
    · simp [getYilanWeeklyA, h]
    · simp [getYilanWeeklyB, h]
  · intro h
    simp [getYilanWeeklyC, h]

/-- C3 witness: the flat-shape payload has no `records.locations`, so both
F-D0047-003 revisions fail on it. -/
theorem C3_amended_witness :
    getYilanWeeklyA none c3payload = OutcomeA.datasetError ∧
      getYilanWeeklyB none c3payload = OutcomeB.notFound :=
  (C3_amended none c3payload).1 rfl

/-- C4 (corrected), counterexample: the spec's single ordered probe chain
(`specProbeChain`, written from the claim's words) yields the non-empty
description 晴 on an entry whose only populated location is
`elementValue[0].description`, but revision A's `getValue` yields null there;
it likewise yields the coded value 5 from `parameter[0].parameterValue`, but
revision C's `getValue` yields null there. -/
theorem C4_counterexample :
    specProbeChain c4entry = some "晴" ∧
      extractValA (some c4entry) 0 = none ∧
      specProbeChain c4entryVal = some "5" ∧
      extractValC (some c4entryVal) 0 = Except.ok none :=
  ⟨rfl, rfl, rfl, rfl⟩

/-- C4 (amended): each revision uses its own fixed probe rather than one
shared chain. On a present entry, revision A's `getValue` probes
`elementValue[k].value` then `elementValue[k].measures` only, its
`getDescription` probes `elementValue[k].description` only, and revision C's
`getValue` probes `parameter[idx].parameterName` only (throwing when
`parameter` is absent); in each case the first non-empty probe wins, else
null. -/
theorem C4_amended (e : TimeEntry) (k : Nat) :
    extractValA (some e) k = amendedValueA e k ∧
      extractDescA (some e) k = amendedDescA e k ∧
      extractValC (some e) k = amendedValueC e k := by
  refine ⟨?_, ?_, ?_⟩
  · cases hev : e.elementValue with
    | none => simp [extractValA, amendedValueA, hev, firstTruthy, truthy]
    | some evs =>
        simp [extractValA, amendedValueA, hev, firstTruthy, jsOrNull, truthy]
  · cases hev : e.elementValue with
    | none => simp [extractDescA, amendedDescA, hev, firstTruthy, truthy]
    | some evs =>
        simp [extractDescA, amendedDescA, hev, firstTruthy, jsOrNull, truthy]
  · cases hp : e.parameter with
    | none => simp [extractValC, amendedValueC, hp]
    | some pv =>
        simp [extractValC, amendedValueC, hp, firstTruthy, jsOrNull, truthy]

/-- C5 (corrected), counterexample: a matched place whose attribute list is
empty produces a plain success outcome with an empty forecast list; there is
no distinct EmptyRecord outcome anywhere in the code (no outcome type has
such a constructor). -/
theorem C5_counterexample :
    getYilanWeeklyA none c5payload = OutcomeA.success (some "宜蘭市") [] :=
  rfl

/-- C5 (amended): a matched place with an empty `weatherElement` list yields
a Success outcome whose forecast list is empty, in both the stable
F-D0047-003 revision and the county-level revision. -/
theorem C5_amended (town : Option String) (p : Payload) :
    (∀ locs loc, allLocationsAB p = some locs →
        findLoc locs (defaultTown town) = some loc →
        loc.weatherElement = [] →
        getYilanWeeklyA town p = OutcomeA.success loc.locationName []) ∧
      (∀ loc, locFirstC p = some loc → loc.weatherElement = [] →
        getYilanWeeklyC town p = OutcomeC.success countyName []) := by
  constructor
  · intro locs loc h1 h2 h3
    cases locs with
    | nil => cases h2
    | cons a rest =>
        simp [getYilanWeeklyA, h1, h2, h3, normalizeA_nil]
  · intro loc h1 h2
    simp [getYilanWeeklyC, h1, h2, normalizeC_nil]

/-- C5 witness: the county-level revision on a matched county record with no
attribute series answers success with an empty forecast list. -/
theorem C5_amended_witness :
    getYilanWeeklyC none c5payloadC = OutcomeC.success countyName [] :=
  (C5_amended none c5payloadC).2 c5locC rfl rfl

/-- C6 (corrected), counterexample: no alias fallback exists. On a record
carrying a `PoP` series (extractable, value 30) but no `PoP12h`, revision A
emits a null precipitation probability; on the same record, carrying a
`MaxT` series but no `T`, revision B emits an empty-string maximum
temperature. -/
theorem C6_counterexample :
    (normalizeA c6wes).map (fun f => f.pop) = [none] ∧
      (elementsGet c6wes "PoP").isSome = true ∧
      extractValA (seriesAt c6wes "PoP" 0) 0 = some "30" ∧
      (normalizeB c6wes).map (fun f => f.maxT) = [some ""] ∧
      (elementsGet c6wes "MaxT").isSome = true :=
  ⟨rfl, rfl, rfl, rfl, rfl⟩

/-- C6 (amended): each revision reads exactly one fixed upstream name per
logical attribute (revision A: `PoP12h`/`MinT`/`MaxT`; revision B:
`PoP`/`MinT`/`T`) and never consults another alias: each emitted field
depends only on the series stored under that one name. -/
theorem C6_amended (wes₁ wes₂ : List WeatherElement) (i : Nat) :
    (elementsGet wes₁ "PoP12h" = elementsGet wes₂ "PoP12h" →
        (forecastA wes₁ i).pop = (forecastA wes₂ i).pop) ∧
      (elementsGet wes₁ "MinT" = elementsGet wes₂ "MinT" →
        (forecastA wes₁ i).minT = (forecastA wes₂ i).minT) ∧
      (elementsGet wes₁ "MaxT" = elementsGet wes₂ "MaxT" →
        (forecastA wes₁ i).maxT = (forecastA wes₂ i).maxT) ∧
      (elementsGet wes₁ "PoP" = elementsGet wes₂ "PoP" →
        (forecastB wes₁ i).pop = (forecastB wes₂ i).pop) ∧
      (elementsGet wes₁ "T" = elementsGet wes₂ "T" →
        (forecastB wes₁ i).maxT = (forecastB wes₂ i).maxT) := by
  refine ⟨?_, ?_, ?_, ?_, ?_⟩ <;> intro h
  · show getValueA wes₁ "PoP12h" 0 i = getValueA wes₂ "PoP12h" 0 i
    unfold getValueA seriesAt
    rw [h]
  · show getValueA wes₁ "MinT" 0 i = getValueA wes₂ "MinT" 0 i
    unfold getValueA seriesAt
    rw [h]
  · show getValueA wes₁ "MaxT" 0 i = getValueA wes₂ "MaxT" 0 i
    unfold getValueA seriesAt
    rw [h]
  · show fieldB (getParamB wes₁ "PoP" i) = fieldB (getParamB wes₂ "PoP" i)
    unfold getParamB
    rw [h]
  · show fieldB (getParamB wes₁ "T" i) = fieldB (getParamB wes₂ "T" i)
    unfold getParamB
    rw [h]

/-- C6 witness: the record carrying only `PoP`/`MaxT` aliases and the empty
record agree on the `PoP12h` series (both lack it), so revision A emits the
same (null) precipitation probability for both. -/
theorem C6_amended_witness :
    (forecastA c6wes 0).pop = (forecastA [] 0).pop :=
  (C6_amended c6wes [] 0).1 rfl

/-- C7 (confirmed): when the located place list is non-empty and no entry's
name matches the requested town, revision A answers with the 404 "查無資料"
outcome carrying the list of available place names — a distinct constructor,
not an exception and not the transport-failure branch. -/
theorem C7_notFound (town : Option String) (p : Payload)
    (locs : List LocationRecord)
    (h1 : allLocationsAB p = some locs) (h2 : locs ≠ [])
    (h3 : ∀ l ∈ locs, l.locationName ≠ some (defaultTown town)) :
    getYilanWeeklyA town p =
      OutcomeA.notFound (locs.map (fun l => l.locationName)) := by
  have hf : findLoc locs (defaultTown town) = none := findLoc_eq_none locs _ h3
  cases locs with
  | nil => exact absurd rfl h2
  | cons a rest => simp [getYilanWeeklyA, h1, hf]

/-- C7 witness: requesting the non-existent town 不存在 against a payload
whose only place is 宜蘭市 yields the not-found outcome listing 宜蘭市. -/
theorem C7_notFound_witness :
    getYilanWeeklyA (some "不存在") c7payload =
      OutcomeA.notFound [some "宜蘭市"] :=
  C7_notFound (some "不存在") c7payload [c7loc] rfl (by decide) (by decide)

/-- C9 (confirmed): between the awaited upstream call and the response the
source reads no mutable state, so the whole located-and-normalized outcome is
a deterministic function of the raw payload: two runs on the same payload
produce identical outcomes in every revision. -/
theorem C9_pure (town : Option String) (p₁ p₂ : Payload) (h : p₁ = p₂) :
    (runTwiceA town p₁).1 = (runTwiceA town p₂).2 ∧
      getYilanWeeklyB town p₁ = getYilanWeeklyB town p₂ ∧
      getYilanWeeklyC town p₁ = getYilanWeeklyC town p₂ := by
  subst h
  exact ⟨rfl, rfl, rfl⟩

/-- C9 witness: both runs of the pipeline on the C7 fixture agree. -/
theorem C9_pure_witness :
    (runTwiceA (some "宜蘭市") c7payload).1 =
        (runTwiceA (some "宜蘭市") c7payload).2 ∧
      getYilanWeeklyB (some "宜蘭市") c7payload =
        getYilanWeeklyB (some "宜蘭市") c7payload ∧
      getYilanWeeklyC (some "宜蘭市") c7payload =
        getYilanWeeklyC (some "宜蘭市") c7payload :=
  C9_pure (some "宜蘭市") c7payload c7payload rfl

/-- C8 (corrected), counterexample: on a record with a `WS` series (whose
entry carries `startTime` T0) and no `Wx` series, revision A still emits one
period — but its times are null rather than taken from the present `WS`
series, while the wind-speed value is extracted fine. -/
theorem C8_counterexample :
    (normalizeA c8wes).map (fun f => f.startTime) = [none] ∧
      (normalizeA c8wes).map (fun f => f.ws) = [some "3"] ∧
      elementsGet c8wes "WS" = some [c8entry] ∧
      c8entry.startTime = some "T0" :=
  ⟨rfl, rfl, rfl, rfl⟩

/-- C8 (amended): the time axis comes from the `Wx` series only. When no
`Wx` series is present, revisions A and B emit periods whose start and end
times are null, and the county-level revision emits no periods at all;
times are never taken from another attribute series. -/
theorem C8_amended (wes : List WeatherElement) (i : Nat)
    (h : elementsGet wes "Wx" = none) :
    (forecastA wes i).startTime = none ∧ (forecastA wes i).endTime = none ∧
      (forecastB wes i).startTime = none ∧ (forecastB wes i).endTime = none ∧
      normalizeC wes = Except.ok [] := by
  have hs : seriesAt wes "Wx" i = none := by
    unfold seriesAt
    rw [h]
    rfl
  have hm : timeMetaA wes i = none := hs
  have hmB : timeMetaB wes i = (none, none) := by
    unfold timeMetaB
    rw [hs]
  refine ⟨?_, ?_, ?_, ?_, ?_⟩
  · show (timeMetaA wes i).bind (fun e => e.startTime) = none
    rw [hm]
    rfl
  · show (timeMetaA wes i).bind (fun e => e.endTime) = none
    rw [hm]
    rfl
  · show (timeMetaB wes i).1 = none
    rw [hmB]
  · show (timeMetaB wes i).2 = none
    rw [hmB]
  · unfold normalizeC timeLenC
    rw [h]
    rfl

/-- C8 witness: on the record carrying only a `WS` series, the emitted
period's times are null in revisions A and B, and revision C emits
nothing. -/
theorem C8_amended_witness :
    (forecastA c8wes 0).startTime = none ∧ (forecastA c8wes 0).endTime = none ∧
      (forecastB c8wes 0).startTime = none ∧
      (forecastB c8wes 0).endTime = none ∧
      normalizeC c8wes = Except.ok [] :=
  C8_amended c8wes 0 rfl

/-- C10 (confirmed): the county-level revision ignores the requested town
path parameter: the upstream query name is the constant 宜蘭縣, the outcome
is identical for any two requested towns, and every success outcome carries
city 宜蘭縣. -/
theorem C10_countyFixed (t₁ t₂ : Option String) (p : Payload) :
    getYilanWeeklyC t₁ p = getYilanWeeklyC t₂ p ∧
      upstreamLocationNameC t₁ = "宜蘭縣" ∧
      (∀ city fcs, getYilanWeeklyC t₁ p = OutcomeC.success city fcs →
        city = "宜蘭縣") := by
  refine ⟨rfl, rfl, ?_⟩
  intro city fcs h
  unfold getYilanWeeklyC at h
  split at h
  · cases h
  · split at h
    · cases h
    · injection h with hc hf
      rw [← hc]
      rfl

/-- C10 witness: for the healthy county payload, two different requested
towns give the same outcome and the success city is 宜蘭縣. -/
theorem C10_countyFixed_witness :
    getYilanWeeklyC (some "礁溪鄉") c10payload =
        getYilanWeeklyC (some "頭城鎮") c10payload ∧
      upstreamLocationNameC (some "礁溪鄉") = "宜蘭縣" ∧
      countyName = "宜蘭縣" := by
  have h := C10_countyFixed (some "礁溪鄉") (some "頭城鎮") c10payload
  exact ⟨h.1, h.2.1, h.2.2 countyName [c10period] rfl⟩

end CwaWeather
